import Mathlib

/-!
Verification of the opsmap agent/gateway core against its specification.

The definitions below are a shallow embedding of the Rust sources:
  src/agent/src/scheduler/mod.rs      (CheckScheduler)
  src/agent/src/buffer/mod.rs         (OfflineBuffer)
  src/agent/src/config/mod.rs         (AgentConfig, load_config)
  src/agent/src/main.rs               (AgentState, handle_gateway_message)
  src/agent/src/executor/mod.rs       (spawn_detached, switch_user)
  src/gateway/src/registry/mod.rs     (AgentRegistry)
  src/gateway/src/backend_client/mod.rs (handle_backend_message)

Machine integers (u64, usize) are modelled as Nat; wall-clock and monotonic
instants as Nat seconds; serde_json::Value as the inductive Json below.
HashMap / DashMap values are modelled as association lists (first binding
wins on lookup, insert replaces), which matches per-key map semantics.
Network sends and process spawns are modelled as emitted events, with the
success case of each send (failure paths are embedded where a claim
depends on them).
-/

/-- Model of serde_json::Value. -/
inductive Json where
  | null
  | bool (b : Bool)
  | num (n : Int)
  | str (s : String)
  | arr (xs : List Json)
  | obj (fields : List (String × Json))
deriving Repr

/-- Association-list lookup: first binding for the key, as in HashMap::get. -/
def alist_lookup {α : Type} (m : List (String × α)) (k : String) : Option α :=
  match m.find? (fun p => p.1 == k) with
  | some p => some p.2
  | none => none

/-- Association-list insert-or-replace, as in HashMap::insert. -/
def alist_insert {α : Type} (m : List (String × α)) (k : String) (v : α) :
    List (String × α) :=
  match m with
  | [] => [(k, v)]
  | (k1, v1) :: rest =>
    if k1 == k then (k, v) :: rest else (k1, v1) :: alist_insert rest k v

/-- Json object field access, as in serde_json Value::get on an object
(config.get("command")). Non-objects have no fields. -/
def Json.get (j : Json) (k : String) : Option Json :=
  match j with
  | .obj fields => alist_lookup fields k
  | _ => none

/-- Value::as_str. -/
def Json.as_str (j : Json) : Option String :=
  match j with
  | .str s => some s
  | _ => none

/-! ## Wire data model (src/agent/src/connection/mod.rs) -/

/-- CheckDefinition (connection/mod.rs lines 50-56). -/
structure CheckDefinition where
  name : String
  check_type : String
  config : Json
  interval_secs : Nat
  timeout_secs : Nat
deriving Repr

/-- ComponentSnapshot (connection/mod.rs lines 41-47); actions omitted as no
claim mentions them. -/
structure ComponentSnapshot where
  id : String
  name : String
  component_type : String
  checks : List CheckDefinition
deriving Repr

/-- Snapshot (connection/mod.rs lines 35-38). -/
structure Snapshot where
  version : Nat
  components : List ComponentSnapshot
deriving Repr

/-- StatusDelta (connection/mod.rs lines 115-122); timestamp as Nat seconds. -/
structure StatusDelta where
  component_id : String
  check_name : String
  status : String
  message : Option String
  metrics : Json
  timestamp : Nat
deriving Repr

/-- Command (connection/mod.rs lines 74-81). -/
structure Command where
  id : String
  command_type : String
  component_id : String
  action_name : Option String
  params : Json
  timeout_secs : Nat
deriving Repr

/-! ## Check scheduler (src/agent/src/scheduler/mod.rs) -/

/-- CheckScheduler state (scheduler/mod.rs lines 17-21). Keys of both maps
are the strings component_id ++ ":" ++ check_name built in run and
get_due_checks. Instants are Nat seconds on the monotonic clock. -/
structure CheckScheduler where
  snapshot : Option Snapshot
  last_status : List (String × String)
  last_sent : List (String × Nat)
deriving Repr

/-- CheckScheduler::new (scheduler/mod.rs lines 24-30). -/
def CheckScheduler.new : CheckScheduler :=
  { snapshot := none, last_status := [], last_sent := [] }

/-- CheckScheduler::update_snapshot (scheduler/mod.rs lines 33-40): logs and
stores the new snapshot; nothing else is touched. -/
def CheckScheduler.update_snapshot (s : CheckScheduler) (snap : Snapshot) :
    CheckScheduler :=
  { s with snapshot := some snap }

/-- The map key format!("{}:{}", component.id, check.name) used in run (line
59) and get_due_checks (line 115). -/
def check_key (component_id check_name : String) : String :=
  component_id ++ ":" ++ check_name

/-- CheckScheduler::get_due_checks (scheduler/mod.rs lines 107-131): a check
is due when its last_sent entry is unset or at least interval_secs old.
now.duration_since(last) is now - last on the monotonic clock (Nat
subtraction: never negative, as in Rust Instants). -/
def CheckScheduler.get_due_checks (s : CheckScheduler) (now : Nat) :
    List (ComponentSnapshot × CheckDefinition) :=
  match s.snapshot with
  | none => []
  | some snap =>
    (snap.components.map (fun component =>
      (component.checks.filter (fun check =>
        match alist_lookup s.last_sent (check_key component.id check.name) with
        | none => true
        | some last => decide (now - last ≥ check.interval_secs))).map
        (fun check => (component, check)))).flatten

/-- The per-delta routing in CheckScheduler::run (scheduler/mod.rs lines
54-80), for the connected send-success case. run takes &self, so the
scheduler state is read but never written: status_changed is computed from
last_status (lines 60-62) and the delta goes to the immediate send (lines
64-74) or to the local pending_deltas vector (line 77). Returns
(sent_immediately, pending_batch) accumulated left to right. -/
def CheckScheduler.route_deltas (s : CheckScheduler) (deltas : List StatusDelta) :
    List StatusDelta × List StatusDelta :=
  deltas.foldl
    (fun acc delta =>
      let key := check_key delta.component_id delta.check_name
      let status_changed :=
        match alist_lookup s.last_status key with
        | some prev => prev != delta.status
        | none => true
      if status_changed then (acc.1 ++ [delta], acc.2)
      else (acc.1, acc.2 ++ [delta]))
    ([], [])

/-- One scheduling tick of CheckScheduler::run (lines 48-104): the due
checks execute and each produced delta is routed. run borrows the
scheduler immutably (&self), so the returned scheduler state is the input
state unchanged: neither last_status nor last_sent is ever inserted into
anywhere in the source. Check execution is abstracted by the produced
deltas. -/
def CheckScheduler.run_tick (s : CheckScheduler) (deltas : List StatusDelta) :
    CheckScheduler × List StatusDelta × List StatusDelta :=
  (s, s.route_deltas deltas)

/-- A sequence of scheduling ticks of run, threading the scheduler state and
the local pending_deltas vector, and concatenating immediate sends. -/
def CheckScheduler.run_ticks (s : CheckScheduler)
    (tick_deltas : List (List StatusDelta)) :
    CheckScheduler × List StatusDelta × List StatusDelta :=
  tick_deltas.foldl
    (fun acc deltas =>
      let step := acc.1.run_tick deltas
      (step.1, acc.2.1 ++ step.2.1, acc.2.2 ++ step.2.2))
    (s, [], [])

/-! ## Offline buffer (src/agent/src/buffer/mod.rs) -/

/-- The file system seen by the buffer, as a map from path to the list of
newline-delimited JSON values the file holds (save_to_file writes one JSON
value per line; load_from_file parses them back). An absent path means the
file does not exist. -/
abbrev FileSys : Type := List (String × List Json)

/-- OfflineBuffer (buffer/mod.rs lines 14-18). The VecDeque is a list whose
head is the front (oldest element). -/
structure OfflineBuffer where
  queue : List Json
  max_size : Nat
  file_path : Option String

/-- OfflineBuffer::new (buffer/mod.rs lines 21-27): empty queue, no file. -/
def OfflineBuffer.new (max_size : Nat) : OfflineBuffer :=
  { queue := [], max_size := max_size, file_path := none }

/-- OfflineBuffer::save_to_file (buffer/mod.rs lines 131-166): truncates and
rewrites the whole queue to the file, one JSON value per line. No-op
without a file path. -/
def OfflineBuffer.save_to_file (b : OfflineBuffer) (fs : FileSys) : FileSys :=
  match b.file_path with
  | none => fs
  | some path => alist_insert fs path b.queue

/-- OfflineBuffer::load_from_file (buffer/mod.rs lines 89-128): missing file
is a no-op; otherwise each line is parsed and pushed onto the back while
the queue is below max_size. Called on the empty queue by with_file, this
keeps the first max_size stored values. -/
def OfflineBuffer.load_from_file (b : OfflineBuffer) (fs : FileSys) : OfflineBuffer :=
  match b.file_path with
  | none => b
  | some path =>
    match alist_lookup fs path with
    | none => b
    | some stored =>
      { b with queue := b.queue ++ (stored.take (b.max_size - b.queue.length)) }

/-- OfflineBuffer::with_file (buffer/mod.rs lines 30-35): new buffer, file
path attached, previous contents reloaded. -/
def OfflineBuffer.with_file (max_size : Nat) (file_path : String) (fs : FileSys) :
    OfflineBuffer :=
  OfflineBuffer.load_from_file
    { OfflineBuffer.new max_size with file_path := some file_path } fs

/-- OfflineBuffer::push (buffer/mod.rs lines 38-52): when the queue already
holds max_size or more items the front (oldest) is popped, then the new
item is pushed onto the back, then the queue is persisted when a file path
is set. Push never fails. -/
def OfflineBuffer.push (b : OfflineBuffer) (data : Json) (fs : FileSys) :
    OfflineBuffer × FileSys :=
  let q1 := if b.queue.length ≥ b.max_size then b.queue.tail else b.queue
  let b1 := { b with queue := q1 ++ [data] }
  (b1, b1.save_to_file fs)

/-- OfflineBuffer::pop (buffer/mod.rs lines 55-63): pops the front (oldest)
item; persists only when something was popped and a file path is set. -/
def OfflineBuffer.pop (b : OfflineBuffer) (fs : FileSys) :
    Option Json × OfflineBuffer × FileSys :=
  match b.queue with
  | [] => (none, b, fs)
  | x :: rest =>
    let b1 := { b with queue := rest }
    (some x, b1, b1.save_to_file fs)

/-! ## Agent configuration (src/agent/src/config/mod.rs) -/

/-- AgentSettings (config/mod.rs lines 21-26). -/
structure AgentSettings where
  id : String
  hostname : Option String
deriving Repr

/-- GatewaySettings (config/mod.rs lines 33-41). -/
structure GatewaySettings where
  url : String
  reconnect_interval_secs : Nat
  heartbeat_interval_secs : Nat
  timeout_secs : Nat
deriving Repr

/-- TlsSettings (config/mod.rs lines 56-64). -/
structure TlsSettings where
  enabled : Bool
  cert_file : Option String
  key_file : Option String
  ca_file : Option String
  verify_server : Bool
deriving Repr

/-- SchedulerSettings (config/mod.rs lines 71-78). -/
structure SchedulerSettings where
  default_check_interval_secs : Nat
  batch_send_interval_secs : Nat
  max_concurrent_checks : Nat
deriving Repr

/-- BufferSettings (config/mod.rs lines 93-97). -/
structure BufferSettings where
  max_size : Nat
  file_path : Option String
deriving Repr

/-- AgentConfig (config/mod.rs lines 10-18). -/
structure AgentConfig where
  agent : AgentSettings
  gateway : GatewaySettings
  tls : TlsSettings
  scheduler : SchedulerSettings
  buffer : BufferSettings
  labels : List (String × String)
deriving Repr

/-- AgentConfig::default (config/mod.rs lines 103-135). -/
def AgentConfig.default : AgentConfig :=
  { agent := { id := "auto", hostname := none }
    gateway :=
      { url := "wss://gateway.opsmap.local:443"
        reconnect_interval_secs := 10
        heartbeat_interval_secs := 30
        timeout_secs := 60 }
    tls :=
      { enabled := true
        cert_file := some "/etc/opsmap/certs/agent.crt"
        key_file := some "/etc/opsmap/certs/agent.key"
        ca_file := some "/etc/opsmap/certs/ca.crt"
        verify_server := true }
    scheduler :=
      { default_check_interval_secs := 30
        batch_send_interval_secs := 60
        max_concurrent_checks := 10 }
    buffer :=
      { max_size := 10000
        file_path := some "/var/lib/opsmap/buffer.json" }
    labels := [] }

/-- The configuration file as load_config observes it: absent, existing but
unreadable, or readable with some content. -/
inductive ConfigFile where
  | absent
  | unreadable
  | content (text : String)

/-- load_config (config/mod.rs lines 138-155): an existing file is read
(read failure is an error) and parsed as YAML (parse failure is an
error); a missing file yields AgentConfig::default. serde_yaml parsing is
abstracted by the parse_yaml parameter. -/
def load_config (parse_yaml : String → Option AgentConfig) (file : ConfigFile) :
    Except String AgentConfig :=
  match file with
  | .absent => .ok AgentConfig.default
  | .unreadable => .error "Failed to read config file"
  | .content text =>
    match parse_yaml text with
    | some cfg => .ok cfg
    | none => .error "Failed to parse config file"

/-! ## Agent shared state (src/agent/src/main.rs) -/

/-- AgentState (main.rs lines 56-61). The live WebSocket connection carries
no state a claim depends on, so it is modelled by its presence. -/
structure AgentState where
  config : AgentConfig
  connection : Option Unit
  buffer : OfflineBuffer
  is_connected : Bool

/-- AgentState::new (main.rs lines 63-72): the buffer is constructed with
OfflineBuffer::new(config.buffer.max_size); config.buffer.file_path is not
consulted and OfflineBuffer::with_file is not called. -/
def AgentState.new (config : AgentConfig) : AgentState :=
  { buffer := OfflineBuffer.new config.buffer.max_size
    config := config
    connection := none
    is_connected := false }

/-! ## Detached process executor (src/agent/src/executor/mod.rs) -/

/-- One observable step of the detachment protocol, in the order the process
tree performs them. -/
inductive DetachStep where
  | fork1_parent_reaps
  | setsid
  | ignore_sighup
  | fork2_intermediate_exits (code : Nat)
  | close_fd (fd : Nat)
  | redirect_stdin (path : String)
  | redirect_out_append (path : String)
  | chdir (path : String)
  | umask (mask : Nat)
  | setgid (gid : Nat)
  | setuid (uid : Nat)
  | process_exit (code : Nat)
  | exec_sh_dash_c (command : String) (exit_code_on_fail : Nat)
deriving Repr, DecidableEq

/-- The user database consulted by nix User::from_name, as a map from user
name to (uid, gid). -/
abbrev UserDb : Type := List (String × (Nat × Nat))

/-- close_all_fds (executor/mod.rs lines 335-353): the upper bound is the
maximum entry of /proc/self/fd, falling back to 1024 when the directory
cannot be read or lists nothing; every fd from 3 up to that bound
inclusive is closed. proc_fds models the directory listing (none = read
failure). -/
def close_all_fds (proc_fds : Option (List Nat)) : List DetachStep :=
  let max_fd :=
    match proc_fds with
    | none => 1024
    | some entries =>
      match entries.max? with
      | none => 1024
      | some m => m
  (List.range' 3 (max_fd - 2)).map DetachStep.close_fd

/-- redirect_std_streams (executor/mod.rs lines 356-381): stdin from
/dev/null, stdout and stderr appended to the job log file. -/
def redirect_std_streams (log_file : String) : List DetachStep :=
  [DetachStep.redirect_stdin "/dev/null",
   DetachStep.redirect_out_append log_file]

/-- switch_user (executor/mod.rs lines 384-399): resolve the user name, then
setgid before setuid; an unknown user is an error. -/
def switch_user (users : UserDb) (username : String) :
    Except String (List DetachStep) :=
  match alist_lookup users username with
  | none => .error ("User not found: " ++ username)
  | some ids => .ok [DetachStep.setgid ids.2, DetachStep.setuid ids.1]

/-- The full shell command built in spawn_detached (lines 316-320) and
execute_with_output (lines 158-162): the command alone, or the command and
the args joined by spaces. -/
def full_command (command : String) (args : List String) : String :=
  if args.isEmpty then command
  else command ++ " " ++ (String.intercalate " " args)

/-- The grandchild tail of spawn_detached (executor/mod.rs lines 282-331):
close fds, redirect streams, chdir to /, clear the umask, optionally drop
privileges (exit 1 on failure), then exec /bin/sh -c (exit 1 if the exec
returns). -/
def grandchild_steps (users : UserDb) (proc_fds : Option (List Nat))
    (command : String) (args : List String) (run_as_user : Option String)
    (log_file : String) : List DetachStep :=
  close_all_fds proc_fds
  ++ redirect_std_streams log_file
  ++ [DetachStep.chdir "/", DetachStep.umask 0]
  ++ (match run_as_user with
      | none => [DetachStep.exec_sh_dash_c (full_command command args) 1]
      | some user =>
        match switch_user users user with
        | .error _ => [DetachStep.process_exit 1]
        | .ok steps =>
          steps ++ [DetachStep.exec_sh_dash_c (full_command command args) 1])

/-- The per-job log file path built in spawn_detached (lines 234-236). -/
def job_log_file (job_id : String) : String :=
  "/var/log/opsmap/jobs/" ++ job_id ++ ".log"

/-- spawn_detached (executor/mod.rs lines 227-332) as the ordered trace of
protocol steps across the fork tree: the parent reaps the intermediate
child of the first fork (lines 239-252); the intermediate child calls
setsid (256-259), ignores SIGHUP (262-264), forks again and exits 0
(267-280); the grandchild continues with grandchild_steps. -/
def spawn_detached (users : UserDb) (proc_fds : Option (List Nat))
    (command : String) (args : List String) (run_as_user : Option String)
    (job_id : String) : List DetachStep :=
  [DetachStep.fork1_parent_reaps,
   DetachStep.setsid,
   DetachStep.ignore_sighup,
   DetachStep.fork2_intermediate_exits 0]
  ++ grandchild_steps users proc_fds command args run_as_user (job_log_file job_id)

/-! ## Agent command handling (src/agent/src/main.rs, executor/mod.rs) -/

/-- The CommandResult value produced by the executor (execute_async_command,
executor/mod.rs lines 145-151). -/
structure ExecCommandResult where
  exit_code : Int
  stdout : String
  stderr : String
  duration_ms : Nat
  job_id : Option String
deriving Repr

/-- The CommandResult literal built in handle_gateway_message (main.rs lines
308-314): exit_code, stdout, stderr, duration_ms and timed_out copied from
the executor result; the executor's job_id field is dropped. -/
structure WireCommandResult where
  exit_code : Int
  stdout : String
  stderr : String
  duration_ms : Nat
  timed_out : Bool
deriving Repr

/-- The CommandResponse literal built in handle_gateway_message (main.rs
lines 290-297 and 328-335). -/
structure WireCommandResponse where
  job_id : String
  agent_id : String
  status : String
  result : Option WireCommandResult
  error : Option String
  timestamp : Nat
deriving Repr

/-- Observable actions of the agent while handling one command message. -/
inductive AgentAction where
  | respond (r : WireCommandResponse)
  | detach (job_id : String) (command : String)
deriving Repr

/-- execute_async_command (executor/mod.rs lines 108-152): reads command,
args and run_as_user out of params, draws a fresh UUIDv4 job_id (passed in
as fresh_uuid), performs spawn_detached, and returns immediately with
exit_code 0 and the job_id. Missing command is an error. The detach side
effect is returned alongside. -/
def execute_async_command (cmd : Command) (fresh_uuid : String) :
    Except String (ExecCommandResult × AgentAction) :=
  match (cmd.params.get "command").bind Json.as_str with
  | none => .error "Missing command in params"
  | some command_str =>
    .ok ({ exit_code := 0
           stdout := ""
           stderr := ""
           duration_ms := 0
           job_id := some fresh_uuid },
         AgentAction.detach fresh_uuid command_str)

/-- The Command arm of handle_gateway_message (main.rs lines 273-340), with
the synchronous executor path abstracted by sync_exec and UUID generation
by fresh_uuid. When the command type is async (start, stop, restart,
action) and a connection is present, a started response carrying cmd.id as
job_id is sent first (lines 287-300); then the command executes; then the
terminal response is built (lines 306-324: completed when exit_code is 0,
else failed; errors map to failed, or timeout when the message says timed
out) and sent when a connection is present (lines 327-339). -/
def handle_command_message (conn_present : Bool) (agent_id : String)
    (fresh_uuid : String) (now : Nat)
    (sync_exec : Command → Except String ExecCommandResult)
    (cmd : Command) : List AgentAction :=
  let is_async :=
    cmd.command_type == "start" || cmd.command_type == "stop" ||
    cmd.command_type == "restart" || cmd.command_type == "action"
  let started : List AgentAction :=
    if is_async && conn_present then
      [AgentAction.respond
        { job_id := cmd.id
          agent_id := agent_id
          status := "started"
          result := none
          error := none
          timestamp := now }]
    else []
  let exec_step : Except String ExecCommandResult × List AgentAction :=
    if is_async then
      match execute_async_command cmd fresh_uuid with
      | .ok res => (.ok res.1, [res.2])
      | .error e => (.error e, [])
    else if cmd.command_type == "check" || cmd.command_type == "native" then
      (sync_exec cmd, [])
    else
      (.error ("Unknown command type: " ++ cmd.command_type), [])
  let final : WireCommandResponse :=
    match exec_step.1 with
    | .ok res =>
      { job_id := cmd.id
        agent_id := agent_id
        status := if res.exit_code == 0 then "completed" else "failed"
        result := some { exit_code := res.exit_code
                         stdout := res.stdout
                         stderr := res.stderr
                         duration_ms := res.duration_ms
                         timed_out := false }
        error := none
        timestamp := now }
    | .error msg =>
      { job_id := cmd.id
        agent_id := agent_id
        status := if (msg.splitOn "timed out").length > 1 then "timeout" else "failed"
        result := none
        error := some msg
        timestamp := now }
  started ++ exec_step.2 ++
    (if conn_present then [AgentAction.respond final] else [])

/-! ## Gateway registry (src/gateway/src/registry/mod.rs) -/

/-- AgentInfo (registry/mod.rs lines 15-25). The command channel tx is
modelled by its presence (has_tx); timestamps are Nat seconds. -/
structure AgentInfo where
  id : String
  hostname : String
  labels : List (String × String)
  version : String
  os : String
  connected_at : Nat
  last_heartbeat : Nat
  has_tx : Bool
deriving Repr, DecidableEq

/-- AgentCommand (registry/mod.rs lines 29-36). -/
structure AgentCommand where
  id : String
  command_type : String
  component_id : String
  action_name : Option String
  params : Json
  timeout_secs : Nat
deriving Repr

/-- The registry contents: DashMap<String, AgentInfo> keyed by agent id,
iterated in list order. -/
abbrev Registry : Type := List AgentInfo

/-- AgentRegistry::get (registry/mod.rs lines 74-76). -/
def Registry.get (reg : Registry) (agent_id : String) : Option AgentInfo :=
  reg.find? (fun a => a.id == agent_id)

/-- The label filter inside AgentRegistry::find_by_labels (registry/mod.rs
lines 100-104): every (k, v) of the selector must be present in the
agent's labels with the same value. -/
def labels_match (agent_labels : List (String × String))
    (selector : List (String × String)) : Bool :=
  selector.all (fun kv =>
    match alist_lookup agent_labels kv.1 with
    | some av => av == kv.2
    | none => false)

/-- AgentRegistry::find_by_labels (registry/mod.rs lines 97-107). -/
def Registry.find_by_labels (reg : Registry)
    (labels : List (String × String)) : List AgentInfo :=
  reg.filter (fun agent => labels_match agent.labels labels)

/-- AgentRegistry::send_command (registry/mod.rs lines 118-131): unknown
agent or missing command channel is an error; otherwise the command is
enqueued to the agent's session (returned as the delivered pair). -/
def Registry.send_command (reg : Registry) (agent_id : String)
    (command : AgentCommand) : Except String (String × AgentCommand) :=
  match reg.get agent_id with
  | none => .error ("Agent not found: " ++ agent_id)
  | some agent =>
    if agent.has_tx then .ok (agent_id, command)
    else .error "Agent has no command channel"

/-- AgentRegistry::send_command_to_labels (registry/mod.rs lines 134-148):
enumerate find_by_labels and send to each, collecting per-agent results. -/
def Registry.send_command_to_labels (reg : Registry)
    (labels : List (String × String)) (command : AgentCommand) :
    List (String × Except String (String × AgentCommand)) :=
  (reg.find_by_labels labels).map
    (fun agent => (agent.id, reg.send_command agent.id command))

/-! ## Backend bridge (src/gateway/src/backend_client/mod.rs) -/

/-- CommandPayload (backend_client/mod.rs lines 27-31). -/
structure CommandPayload where
  agent_id : Option String
  labels : Option (List (String × String))
  command : AgentCommand
deriving Repr

/-- SnapshotPayload (backend_client/mod.rs lines 34-37). -/
structure SnapshotPayload where
  agent_id : String
  snapshot : Json
deriving Repr

/-- BackendToGatewayMessage (backend_client/mod.rs lines 17-24). -/
inductive BackendToGatewayMessage where
  | command (payload : CommandPayload)
  | snapshot (payload : SnapshotPayload)
  | ping
deriving Repr

/-- A routing effect of the backend bridge: a message enqueued onto an
agent session's command queue. -/
inductive RouteEffect where
  | deliver_command (agent_id : String) (command : AgentCommand)
  | deliver_snapshot (agent_id : String) (snapshot : Json)
deriving Repr

/-- handle_backend_message (backend_client/mod.rs lines 194-231): a command
with an agent_id selector goes through Registry::send_command (routing
errors are logged and dropped); otherwise a labels selector fans out
through send_command_to_labels; a snapshot message only logs — the
forwarding marked TODO at line 223 is absent — and ping only logs. The
returned list is every command enqueued onto an agent queue. -/
def handle_backend_message (reg : Registry) (msg : BackendToGatewayMessage) :
    List RouteEffect :=
  match msg with
  | .command payload =>
    match payload.agent_id with
    | some agent_id =>
      match reg.send_command agent_id payload.command with
      | .ok delivered => [RouteEffect.deliver_command delivered.1 delivered.2]
      | .error _ => []
    | none =>
      match payload.labels with
      | some labels =>
        (reg.send_command_to_labels labels payload.command).foldr
          (fun res acc =>
            match res.2 with
            | .ok delivered =>
              RouteEffect.deliver_command delivered.1 delivered.2 :: acc
            | .error _ => acc) []
      | none => []
  | .snapshot _ => []
  | .ping => []

/-! ## Concrete fixtures used by the theorems -/

/-- A delta of the single check (comp-1, disk) with the given status. -/
def disk_delta (status : String) : StatusDelta :=
  { component_id := "comp-1"
    check_name := "disk"
    status := status
    message := none
    metrics := Json.null
    timestamp := 0 }

/-- The status sequence of spec scenario S1. -/
def s1_statuses : List String := ["ok", "ok", "warning", "warning", "ok"]

/-- A check with a five-second cadence. -/
def five_sec_check : CheckDefinition :=
  { name := "chk"
    check_type := "native:cpu"
    config := Json.null
    interval_secs := 5
    timeout_secs := 10 }

/-- The component carrying five_sec_check. -/
def comp_c1 : ComponentSnapshot :=
  { id := "c1", name := "comp one", component_type := "service"
    checks := [five_sec_check] }

/-- A component with id c2 and no checks. -/
def comp_c2 : ComponentSnapshot :=
  { id := "c2", name := "comp two", component_type := "service", checks := [] }

/-- Snapshot S containing component c1. -/
def snapshot_s : Snapshot := { version := 1, components := [comp_c1] }

/-- Snapshot S2 in which component c1 no longer appears. -/
def snapshot_s2 : Snapshot := { version := 2, components := [comp_c2] }

/-- A scheduler that has memoised state for the key c1:chk under snapshot S. -/
def sched_with_memo : CheckScheduler :=
  { snapshot := some snapshot_s
    last_status := [("c1:chk", "ok")]
    last_sent := [("c1:chk", 10)] }

/-- A registered agent labelled role=db, env=prod. -/
def agent_db : AgentInfo :=
  { id := "a1", hostname := "host-1", labels := [("role", "db"), ("env", "prod")]
    version := "1.0", os := "linux", connected_at := 0, last_heartbeat := 0
    has_tx := true }

/-- A registered agent labelled role=web, env=prod. -/
def agent_web : AgentInfo :=
  { id := "a2", hostname := "host-2", labels := [("role", "web"), ("env", "prod")]
    version := "1.0", os := "linux", connected_at := 0, last_heartbeat := 0
    has_tx := true }

/-- A registry holding both agents. -/
def two_agent_registry : Registry := [agent_db, agent_web]

/-- A backend-issued command. -/
def sample_agent_command : AgentCommand :=
  { id := "cmd-9", command_type := "action", component_id := "comp-1"
    action_name := some "restart-db", params := Json.null, timeout_secs := 60 }

/-- An async start command whose params carry a shell command. -/
def start_cmd : Command :=
  { id := "cmd-1", command_type := "start", component_id := "comp-1"
    action_name := none
    params := Json.obj [("command", Json.str "sleep 30")]
    timeout_secs := 30 }

/-- A fresh UUIDv4 drawn by the executor in the model runs. -/
def sample_uuid : String := "f47ac10b-58cc-4372-a567-0e02b2c3d479"

/-- The synchronous executor path, unused by the async scenarios. -/
def unused_sync_exec : Command → Except String ExecCommandResult :=
  fun _ => .error "unused"

/-- A two-element buffer at capacity, for the buffer witness. -/
def full_buffer : OfflineBuffer :=
  { queue := [Json.str "a", Json.str "b"], max_size := 2, file_path := none }

/-! ## Helper lemmas -/

/-- labels_match holds exactly when every selector pair appears in the
agent's labels. -/
theorem labels_match_iff (agent_labels sel : List (String × String)) :
    labels_match agent_labels sel = true ↔
      ∀ kv ∈ sel, alist_lookup agent_labels kv.1 = some kv.2 := by
  simp only [labels_match, List.all_eq_true]
  constructor
  · intro h kv hkv
    have := h kv hkv
    cases hl : alist_lookup agent_labels kv.1 with
    | none => rw [hl] at this; exact absurd this (by simp)
    | some av =>
      rw [hl] at this
      have : av = kv.2 := by simpa using this
      rw [this]
  · intro h kv hkv
    rw [h kv hkv]
    simp

/-- The list of fds closed by close_all_fds. -/
def closed_fds (steps : List DetachStep) : List Nat :=
  steps.filterMap (fun s =>
    match s with
    | DetachStep.close_fd fd => some fd
    | _ => none)

/-- The fd upper bound computed by close_all_fds: the maximum entry of
/proc/self/fd with fallback 1024. -/
def fd_bound (proc_fds : Option (List Nat)) : Nat :=
  match proc_fds with
  | none => 1024
  | some entries =>
    match entries.max? with
    | none => 1024
    | some m => m

/-- close_all_fds closes exactly the fds from 3 to the bound inclusive. -/
theorem close_all_fds_eq (proc_fds : Option (List Nat)) :
    close_all_fds proc_fds
      = (List.range' 3 (fd_bound proc_fds - 2)).map DetachStep.close_fd := by
  unfold close_all_fds fd_bound
  cases proc_fds with
  | none => rfl
  | some entries => cases entries.max? <;> rfl

/-- Membership in the closed-fd range. -/
theorem mem_close_all_fds (proc_fds : Option (List Nat)) (fd : Nat) :
    DetachStep.close_fd fd ∈ close_all_fds proc_fds ↔
      3 ≤ fd ∧ fd ≤ fd_bound proc_fds := by
  rw [close_all_fds_eq]
  rw [List.mem_map]
  constructor
  · rintro ⟨n, hn, hEq⟩
    cases hEq
    have := List.mem_range'_1.mp hn
    omega
  · intro h
    refine ⟨fd, List.mem_range'_1.mpr ?_, rfl⟩
    omega

/-! ## Claim theorems -/

/-- C1: the claim says last_status is updated after each immediate send so
that only status transitions go on the fast path, giving 3 immediate sends
and 2 batched deltas for the sequence ok, ok, warning, warning, ok. The
code never writes last_status (CheckScheduler::run borrows &self), so
status_changed is true on every execution: across the five ticks all five
deltas are sent immediately, none is batched, and the scheduler state is
unchanged throughout. -/
theorem C1_unchanged_status_still_sent_immediately :
    CheckScheduler.run_ticks CheckScheduler.new
        (s1_statuses.map (fun s => [disk_delta s]))
      = (CheckScheduler.new, s1_statuses.map disk_delta, [])
    ∧ (s1_statuses.map disk_delta).length = 5 := by
  exact ⟨rfl, rfl⟩

/-- C2: the claim says a check is due only when its last execution start is
at least interval_secs old and that each execution records the per-key
last-run time. get_due_checks does gate on last_sent as claimed, but run
never records anything into last_sent (it borrows &self), so a check with
interval_secs = 5 is due at tick 0, the tick leaves the scheduler
unchanged, and the same check is due again at tick 1 — two execution
starts one second apart. -/
theorem C2_checks_due_every_tick :
    CheckScheduler.get_due_checks
        (CheckScheduler.new.update_snapshot snapshot_s) 0
      = [(comp_c1, five_sec_check)]
    ∧ (CheckScheduler.run_tick
        (CheckScheduler.new.update_snapshot snapshot_s) [disk_delta "ok"]).1
      = CheckScheduler.new.update_snapshot snapshot_s
    ∧ CheckScheduler.get_due_checks
        (CheckScheduler.new.update_snapshot snapshot_s) 1
      = [(comp_c1, five_sec_check)]
    ∧ 1 - 0 < five_sec_check.interval_secs := by
  exact ⟨rfl, rfl, rfl, by decide⟩

/-- C3: the claim says the buffer held in the agent's shared state is the
file-backed buffer, persisting every push and reloading on restart.
AgentState::new constructs it with OfflineBuffer::new, ignoring the
configured file path, so its file_path is none, a push writes nothing to
the file system, and a freshly constructed agent state starts with an
empty queue whatever the file holds — while the unused
OfflineBuffer::with_file constructor would reload as the claim
describes. -/
theorem C3_agent_buffer_not_file_backed :
    (AgentState.new AgentConfig.default).buffer.file_path = none
    ∧ AgentConfig.default.buffer.file_path = some "/var/lib/opsmap/buffer.json"
    ∧ ((AgentState.new AgentConfig.default).buffer.push (Json.str "delta-1")
        []).2 = ([] : FileSys)
    ∧ (AgentState.new AgentConfig.default).buffer.queue = []
    ∧ (OfflineBuffer.with_file 10000 "/var/lib/opsmap/buffer.json"
        [("/var/lib/opsmap/buffer.json", [Json.str "delta-1"])]).queue
      = [Json.str "delta-1"] := by
  exact ⟨rfl, rfl, rfl, rfl, rfl⟩

/-- The detachment steps common to every run, in the order the claim
specifies them: first fork with the parent reaping, setsid, SIGHUP ignore
before the second fork, second fork with the intermediate child exiting 0,
fd hygiene, stream redirection into the per-job append log, chdir to /
and umask 0. -/
def detach_preamble (proc_fds : Option (List Nat)) (job_id : String) :
    List DetachStep :=
  [DetachStep.fork1_parent_reaps,
   DetachStep.setsid,
   DetachStep.ignore_sighup,
   DetachStep.fork2_intermediate_exits 0]
  ++ close_all_fds proc_fds
  ++ [DetachStep.redirect_stdin "/dev/null",
      DetachStep.redirect_out_append ("/var/log/opsmap/jobs/" ++ job_id ++ ".log"),
      DetachStep.chdir "/",
      DetachStep.umask 0]

/-- C4: the detached executor performs the detachment steps in the specified
order. Whatever the user database, the /proc/self/fd listing, the command,
the args and the job id: without run_as_user the trace is the common order
followed directly by the exec of /bin/sh -c (exit 1 on exec failure); with
a resolvable run_as_user, setgid comes before setuid and then the exec;
with an unresolvable run_as_user the grandchild exits 1 instead; the
closed fds are exactly those from 3 to the bound enumerated from
/proc/self/fd, and the bound falls back to 1024 when the enumeration
fails. -/
theorem C4_detachment_protocol_order (users : UserDb)
    (proc_fds : Option (List Nat)) (command : String) (args : List String)
    (job_id : String) :
    (spawn_detached users proc_fds command args none job_id
      = detach_preamble proc_fds job_id
        ++ [DetachStep.exec_sh_dash_c (full_command command args) 1])
    ∧ (∀ u uid gid, alist_lookup users u = some (uid, gid) →
        spawn_detached users proc_fds command args (some u) job_id
          = detach_preamble proc_fds job_id
            ++ [DetachStep.setgid gid, DetachStep.setuid uid,
                DetachStep.exec_sh_dash_c (full_command command args) 1])
    ∧ (∀ u, alist_lookup users u = none →
        spawn_detached users proc_fds command args (some u) job_id
          = detach_preamble proc_fds job_id ++ [DetachStep.process_exit 1])
    ∧ (∀ fd, DetachStep.close_fd fd ∈ close_all_fds proc_fds ↔
        3 ≤ fd ∧ fd ≤ fd_bound proc_fds)
    ∧ fd_bound none = 1024 := by
  refine ⟨?_, ?_, ?_, fun fd => mem_close_all_fds proc_fds fd, rfl⟩
  · simp [spawn_detached, grandchild_steps, detach_preamble, job_log_file,
      redirect_std_streams]
  · intro u uid gid h
    simp [spawn_detached, grandchild_steps, detach_preamble, job_log_file,
      redirect_std_streams, switch_user, h]
  · intro u h
    simp [spawn_detached, grandchild_steps, detach_preamble, job_log_file,
      redirect_std_streams, switch_user, h]

/-- Witness for C4 at a concrete input: a user database resolving svc to
uid 1000 and gid 100, a concrete fd listing and job id. -/
theorem C4_detachment_protocol_order_witness :
    spawn_detached [("svc", (1000, 100))] (some [0, 1, 2, 5])
        "systemctl restart nginx" [] (some "svc") "job-1"
      = detach_preamble (some [0, 1, 2, 5]) "job-1"
        ++ [DetachStep.setgid 100, DetachStep.setuid 1000,
            DetachStep.exec_sh_dash_c
              (full_command "systemctl restart nginx" []) 1] :=
  (C4_detachment_protocol_order [("svc", (1000, 100))] (some [0, 1, 2, 5])
    "systemctl restart nginx" [] "job-1").2.1 "svc" 1000 100 (by rfl)

/-- C5 counterexample: the claim says the started response contains the
fresh UUIDv4 generated for the detached job. On a concrete start command
with id cmd-1 and fresh UUID sample_uuid, the first emitted response
carries cmd-1 as its job_id, not the fresh UUID. -/
theorem C5_started_response_uses_command_id :
    (handle_command_message true "agent-1" sample_uuid 0 unused_sync_exec
        start_cmd).head?
      = some (AgentAction.respond
          { job_id := "cmd-1", agent_id := "agent-1", status := "started"
            result := none, error := none, timestamp := 0 })
    ∧ "cmd-1" ≠ sample_uuid := by
  exact ⟨rfl, by decide⟩

/-- C5 amended: for every received async command (start, stop, restart,
action) whose params carry a command string, with a connection present the
agent emits exactly two responses: a started response whose job_id is the
command's own id (the executor's fresh UUIDv4 names only the detached
job), emitted before detachment, then a terminal completed response with
exit_code 0 after detachment. -/
theorem C5_async_two_responses_amended (agent_id fresh_uuid : String)
    (now : Nat) (sync_exec : Command → Except String ExecCommandResult)
    (cmd : Command) (command_str : String)
    (htype : cmd.command_type = "start" ∨ cmd.command_type = "stop" ∨
      cmd.command_type = "restart" ∨ cmd.command_type = "action")
    (hcmd : (cmd.params.get "command").bind Json.as_str = some command_str) :
    handle_command_message true agent_id fresh_uuid now sync_exec cmd
      = [AgentAction.respond
          { job_id := cmd.id, agent_id := agent_id, status := "started"
            result := none, error := none, timestamp := now },
         AgentAction.detach fresh_uuid command_str,
         AgentAction.respond
          { job_id := cmd.id, agent_id := agent_id, status := "completed"
            result := some { exit_code := 0, stdout := "", stderr := ""
                             duration_ms := 0, timed_out := false }
            error := none, timestamp := now }] := by
  rcases htype with h | h | h | h <;>
    simp [handle_command_message, execute_async_command, hcmd, h]

/-- Witness for C5 amended at the concrete start command. -/
theorem C5_async_two_responses_amended_witness :
    handle_command_message true "agent-1" sample_uuid 0 unused_sync_exec
        start_cmd
      = [AgentAction.respond
          { job_id := start_cmd.id, agent_id := "agent-1", status := "started"
            result := none, error := none, timestamp := 0 },
         AgentAction.detach sample_uuid "sleep 30",
         AgentAction.respond
          { job_id := start_cmd.id, agent_id := "agent-1"
            status := "completed"
            result := some { exit_code := 0, stdout := "", stderr := ""
                             duration_ms := 0, timed_out := false }
            error := none, timestamp := 0 }] :=
  C5_async_two_responses_amended "agent-1" sample_uuid 0 unused_sync_exec
    start_cmd "sleep 30" (Or.inl rfl) (by rfl)

/-- C6: the claim says command messages route by agent_id or labels and
snapshot messages are forwarded to the agent's queue. On a registry of two
live agents: a command with the agent_id selector a2 is delivered to a2; a
command with the labels selector env=prod is delivered to both matching
agents; but a snapshot message for a1 produces no delivery at all — the
forwarding is the TODO left at backend_client/mod.rs line 223. -/
theorem C6_backend_routing_snapshot_dropped :
    handle_backend_message two_agent_registry
        (BackendToGatewayMessage.command
          { agent_id := some "a2", labels := none
            command := sample_agent_command })
      = [RouteEffect.deliver_command "a2" sample_agent_command]
    ∧ handle_backend_message two_agent_registry
        (BackendToGatewayMessage.command
          { agent_id := none, labels := some [("env", "prod")]
            command := sample_agent_command })
      = [RouteEffect.deliver_command "a1" sample_agent_command,
         RouteEffect.deliver_command "a2" sample_agent_command]
    ∧ handle_backend_message two_agent_registry
        (BackendToGatewayMessage.snapshot
          { agent_id := "a1", snapshot := Json.null })
      = [] := by
  exact ⟨rfl, rfl, rfl⟩

/-- C7 counterexample: the claim says the empty label map returns the empty
list rather than every agent. On a registry holding the role=db agent, the
empty selector matches vacuously and returns that agent. -/
theorem C7_empty_labels_matches_all :
    Registry.find_by_labels [agent_db] [] = [agent_db]
    ∧ ([agent_db] : List AgentInfo) ≠ [] := by
  exact ⟨rfl, by decide⟩

/-- C7 amended: find_by_labels returns exactly the registered agents whose
labels are a superset of the selector (every key/value pair of the
selector appears among the agent's labels); since every label set is a
superset of the empty map, the empty selector returns every registered
agent, not the empty list. -/
theorem C7_find_by_labels_superset (reg : Registry)
    (sel : List (String × String)) (a : AgentInfo) :
    (a ∈ reg.find_by_labels sel ↔
      a ∈ reg ∧ ∀ kv ∈ sel, alist_lookup a.labels kv.1 = some kv.2)
    ∧ reg.find_by_labels [] = reg := by
  constructor
  · rw [Registry.find_by_labels, List.mem_filter, labels_match_iff]
  · simp [Registry.find_by_labels, labels_match]

/-- C8 counterexample: the claim says per-check state of keys absent from
the new snapshot is removed. Replacing snapshot S by S2, in which
component c1 no longer appears, leaves the c1:chk entries of last_status
and last_sent exactly where they were. -/
theorem C8_stale_state_retained :
    (sched_with_memo.update_snapshot snapshot_s2).last_status
      = [("c1:chk", "ok")]
    ∧ (sched_with_memo.update_snapshot snapshot_s2).last_sent
      = [("c1:chk", 10)]
    ∧ alist_lookup (sched_with_memo.update_snapshot snapshot_s2).last_status
        "c1:chk" = some "ok"
    ∧ snapshot_s2.components.all (fun c => c.id != "c1") = true := by
  exact ⟨rfl, rfl, rfl, rfl⟩

/-- C8 amended: replacing the snapshot installs the new snapshot and leaves
the per-check state of every key unchanged — entries of keys that persist
are kept, and entries of keys that disappeared are retained rather than
removed. -/
theorem C8_update_snapshot_frame (s : CheckScheduler) (snap : Snapshot) :
    (s.update_snapshot snap).snapshot = some snap
    ∧ (s.update_snapshot snap).last_status = s.last_status
    ∧ (s.update_snapshot snap).last_sent = s.last_sent := by
  exact ⟨rfl, rfl, rfl⟩

/-- C9 counterexample: the claim says the buffer length never exceeds
max_size. With max_size = 0 the full-buffer branch has nothing to evict,
so one push leaves one item and the bound is exceeded. -/
theorem C9_zero_capacity_exceeded :
    ¬ (((OfflineBuffer.new 0).push (Json.str "m") []).1.queue.length
        ≤ (OfflineBuffer.new 0).max_size) := by
  decide

/-- C9 amended: for max_size at least 1 the offline buffer is a FIFO queue
whose length never exceeds max_size: a push on a buffer within its bound
stays within the bound, a push on a buffer already holding max_size items
evicts exactly the oldest item and retains the new one (and always
succeeds), a push on a buffer below capacity appends, and pop returns the
oldest item, leaving the rest in push order. -/
theorem C9_buffer_fifo_bounded (b : OfflineBuffer) (j : Json) (fs : FileSys)
    (hmax : 1 ≤ b.max_size) :
    (b.queue.length ≤ b.max_size →
      (b.push j fs).1.queue.length ≤ b.max_size)
    ∧ (b.queue.length = b.max_size →
      (b.push j fs).1.queue = b.queue.tail ++ [j])
    ∧ (b.queue.length < b.max_size →
      (b.push j fs).1.queue = b.queue ++ [j])
    ∧ (b.pop fs).1 = b.queue.head?
    ∧ (b.pop fs).2.1.queue = b.queue.tail := by
  refine ⟨?_, ?_, ?_, ?_, ?_⟩
  · intro hlen
    by_cases hfull : b.queue.length ≥ b.max_size
    · have hEq : b.queue.length = b.max_size := le_antisymm hlen hfull
      simp only [OfflineBuffer.push, if_pos hfull, List.length_append,
        List.length_tail, List.length_cons, List.length_nil]
      omega
    · simp only [OfflineBuffer.push, if_neg hfull, List.length_append,
        List.length_cons, List.length_nil]
      omega
  · intro hEq
    have hfull : b.queue.length ≥ b.max_size := le_of_eq hEq.symm
    simp only [OfflineBuffer.push, if_pos hfull]
  · intro hlt
    have hnot : ¬ b.queue.length ≥ b.max_size := not_le.mpr hlt
    simp only [OfflineBuffer.push, if_neg hnot]
  · cases hq : b.queue with
    | nil => simp [OfflineBuffer.pop, hq]
    | cons x rest => simp [OfflineBuffer.pop, hq]
  · cases hq : b.queue with
    | nil => simp [OfflineBuffer.pop, hq]
    | cons x rest => simp [OfflineBuffer.pop, hq]

/-- Witness for C9 amended: the two-element buffer at capacity 2 evicts its
oldest item on push and pops in FIFO order. -/
theorem C9_buffer_fifo_bounded_witness :
    (full_buffer.push (Json.str "c") []).1.queue
      = full_buffer.queue.tail ++ [Json.str "c"]
    ∧ (full_buffer.pop []).1 = full_buffer.queue.head? :=
  ⟨(C9_buffer_fifo_bounded full_buffer (Json.str "c") [] (by decide)).2.1
      (by rfl),
   (C9_buffer_fifo_bounded full_buffer (Json.str "c") [] (by decide)).2.2.2.1⟩

/-- C10: when the configuration file path does not exist, load_config
returns the built-in default configuration — agent id auto, TLS enabled,
gateway URL wss gateway.opsmap.local 443, buffer max_size 10000 — and an
error arises only when the file exists but cannot be read or cannot be
parsed as YAML. -/
theorem C10_load_config_defaults (parse_yaml : String → Option AgentConfig)
    (file : ConfigFile) (e : String)
    (herr : load_config parse_yaml file = .error e) :
    load_config parse_yaml ConfigFile.absent = .ok AgentConfig.default
    ∧ AgentConfig.default.agent.id = "auto"
    ∧ AgentConfig.default.tls.enabled = true
    ∧ AgentConfig.default.gateway.url = "wss://gateway.opsmap.local:443"
    ∧ AgentConfig.default.buffer.max_size = 10000
    ∧ (file = ConfigFile.unreadable
        ∨ ∃ text, file = ConfigFile.content text ∧ parse_yaml text = none) := by
  refine ⟨rfl, rfl, rfl, rfl, rfl, ?_⟩
  cases file with
  | absent => exact absurd herr (by simp [load_config])
  | unreadable => exact Or.inl rfl
  | content text =>
    cases hp : parse_yaml text with
    | some cfg => rw [load_config, hp] at herr; exact absurd herr (by simp)
    | none => exact Or.inr ⟨text, rfl, hp⟩

/-- Witness for C10 at a concrete unparsable file and the trivial parser. -/
theorem C10_load_config_defaults_witness :
    load_config (fun _ => none) (ConfigFile.content "bad yaml")
      = Except.error "Failed to parse config file"
    ∧ (load_config (fun _ => none) ConfigFile.absent
        = .ok AgentConfig.default
      ∧ AgentConfig.default.agent.id = "auto"
      ∧ AgentConfig.default.tls.enabled = true
      ∧ AgentConfig.default.gateway.url = "wss://gateway.opsmap.local:443"
      ∧ AgentConfig.default.buffer.max_size = 10000
      ∧ (ConfigFile.content "bad yaml" = ConfigFile.unreadable
          ∨ ∃ text, ConfigFile.content "bad yaml" = ConfigFile.content text
              ∧ (fun (_ : String) => (none : Option AgentConfig)) text
                = none)) :=
  ⟨rfl, C10_load_config_defaults (fun _ => none)
    (ConfigFile.content "bad yaml") "Failed to parse config file" rfl⟩
